import Mathlib

/-!
Verification development for the cohesive-internal-scripts repository.

The Python sources are shallowly embedded: the pure transformation performed by
each operation is written as an executable Lean function, external effects
(HTTP requests, model calls) are represented by the request values that would be
sent or by oracle functions supplied as parameters, and exceptions are
represented by `Except` values.
-/

/-- Schema type `SeqDelayDetails` from src/clients/smartlead/schema.py. -/
structure SeqDelayDetails where
  delayInDays : Int
deriving DecidableEq

/-- Schema type `SmartleadCampaignSequenceVariant` from src/clients/smartlead/schema.py. -/
structure SmartleadCampaignSequenceVariant where
  id : Int
  created_at : String
  updated_at : String
  is_deleted : Bool
  subject : String
  email_body : String
  email_campaign_seq_id : Int
  variant_label : String
  optional_email_body_1 : Option String
  variant_distribution_percentage : Option Int
  year : Int
deriving DecidableEq

/-- Schema type `SmartleadCampaignSequence` from src/clients/smartlead/schema.py. -/
structure SmartleadCampaignSequence where
  id : Int
  created_at : String
  updated_at : String
  email_campaign_id : Int
  seq_number : Int
  subject : String
  email_body : String
  seq_delay_details : SeqDelayDetails
  sequence_variants : Option (List SmartleadCampaignSequenceVariant)
deriving DecidableEq

/-- Schema type `SeqDelayDetailsInput` from src/clients/smartlead/schema.py. -/
structure SeqDelayDetailsInput where
  delay_in_days : Int
deriving DecidableEq

/-- Schema type `SequenceVariantInput` from src/clients/smartlead/schema.py. -/
structure SequenceVariantInput where
  subject : String
  id : Option Int
  email_body : String
  variant_label : String
  variant_distribution_percentage : Option Int
deriving DecidableEq

/-- Schema type `SmartleadCampaignSequenceInput` from src/clients/smartlead/schema.py. -/
structure SmartleadCampaignSequenceInput where
  seq_number : Int
  id : Option Int
  subject : Option String
  email_body : Option String
  seq_delay_details : Option SeqDelayDetailsInput
  seq_variants : Option (List SequenceVariantInput)
deriving DecidableEq

/-- Variant inputs built for an original sequence in `add_follow_ups_to_campaign`
(src/pages/va/add_follow_ups.py lines 46-57): variant ids are preserved, and the
result is `none` when the source variant list is missing or empty, mirroring the
Python truthiness test `if seq.sequence_variants:`. -/
def originalVariantInputs (vs : Option (List SmartleadCampaignSequenceVariant)) :
    Option (List SequenceVariantInput) :=
  match vs with
  | none => none
  | some l =>
    if l.isEmpty then none
    else some (l.map (fun v =>
      { subject := v.subject,
        id := some v.id,
        email_body := v.email_body,
        variant_label := v.variant_label,
        variant_distribution_percentage := v.variant_distribution_percentage }))

/-- Variant inputs built for a cloned sequence in `add_follow_ups_to_campaign`
(src/pages/va/add_follow_ups.py lines 81-92): variant ids are cleared (`id=None`),
and the result is `none` when the source variant list is missing or empty. -/
def cloneVariantInputs (vs : Option (List SmartleadCampaignSequenceVariant)) :
    Option (List SequenceVariantInput) :=
  match vs with
  | none => none
  | some l =>
    if l.isEmpty then none
    else some (l.map (fun v =>
      { subject := v.subject,
        id := none,
        email_body := v.email_body,
        variant_label := v.variant_label,
        variant_distribution_percentage := v.variant_distribution_percentage }))

/-- Input object built for one original sequence in `add_follow_ups_to_campaign`
(src/pages/va/add_follow_ups.py lines 58-69): id, number, subject, body and delay
are carried over unchanged. -/
def buildOriginalInput (seq : SmartleadCampaignSequence) : SmartleadCampaignSequenceInput :=
  { id := some seq.id,
    seq_number := seq.seq_number,
    subject := some seq.subject,
    email_body := some seq.email_body,
    seq_delay_details := some { delay_in_days := seq.seq_delay_details.delayInDays },
    seq_variants := originalVariantInputs seq.sequence_variants }

/-- Input object built for the clone of the sequence at position `index`
(0-based) in `add_follow_ups_to_campaign` (src/pages/va/add_follow_ups.py lines
73-103): `original_count` is `len(sequences)`, the new sequence number is
`original_count + index + 1`, the id is cleared, and only the clone at index 0
receives the caller-supplied `delay_period`. -/
def buildCloneInput (original_count : Nat) (delay_period : Int) (index : Nat)
    (seq : SmartleadCampaignSequence) : SmartleadCampaignSequenceInput :=
  { id := none,
    seq_number := (original_count : Int) + (index : Int) + 1,
    subject := some seq.subject,
    email_body := some seq.email_body,
    seq_delay_details :=
      some { delay_in_days :=
               if index = 0 then delay_period else seq.seq_delay_details.delayInDays },
    seq_variants := cloneVariantInputs seq.sequence_variants }

/-- Clone list built by the `for index, seq in enumerate(sequences)` loop of
`add_follow_ups_to_campaign`, carrying the running index explicitly. -/
def buildClonesAux (original_count : Nat) (delay_period : Int) :
    Nat → List SmartleadCampaignSequence → List SmartleadCampaignSequenceInput
  | _, [] => []
  | i, s :: rest =>
    buildCloneInput original_count delay_period i s ::
      buildClonesAux original_count delay_period (i + 1) rest

/-- The `input_sequences = original_inputs + clones` list submitted by
`add_follow_ups_to_campaign` (src/pages/va/add_follow_ups.py line 105). -/
def add_follow_ups_input_sequences (sequences : List SmartleadCampaignSequence)
    (delay_period : Int) : List SmartleadCampaignSequenceInput :=
  sequences.map buildOriginalInput ++ buildClonesAux sequences.length delay_period 0 sequences

/-- Observable outcome of `add_follow_ups_to_campaign`
(src/pages/va/add_follow_ups.py lines 29-115) given the fetched sequence list:
`none` models the early `return` when `expected_sequence_length is not None and
len(sequences) >= expected_sequence_length` (nothing is built or submitted);
`some l` models submitting `l` through `add_sequences_to_campaign`. -/
def add_follow_ups_submission (sequences : List SmartleadCampaignSequence)
    (delay_period : Int) (expected_sequence_length : Option Nat) :
    Option (List SmartleadCampaignSequenceInput) :=
  match expected_sequence_length with
  | some e =>
    if e ≤ sequences.length then none
    else some (add_follow_ups_input_sequences sequences delay_period)
  | none => some (add_follow_ups_input_sequences sequences delay_period)

/-- The follow-up workflow runner (src/pages/va/add_follow_ups.py lines
191-195) calls `add_follow_ups_to_campaign` without an
`expected_sequence_length` argument, so the parameter takes its default `None`. -/
def runner_add_follow_ups (delay_period : Int)
    (sequences : List SmartleadCampaignSequence) :
    Option (List SmartleadCampaignSequenceInput) :=
  add_follow_ups_submission sequences delay_period none

theorem buildClonesAux_length (n : Nat) (d : Int) :
    ∀ (l : List SmartleadCampaignSequence) (i : Nat),
      (buildClonesAux n d i l).length = l.length := by
  intro l
  induction l with
  | nil => intro i; rfl
  | cons s rest ih => intro i; simp [buildClonesAux, ih]

theorem buildClonesAux_getElem? (n : Nat) (d : Int) :
    ∀ (l : List SmartleadCampaignSequence) (i j : Nat),
      (buildClonesAux n d i l)[j]? = (l[j]?).map (buildCloneInput n d (i + j)) := by
  intro l
  induction l with
  | nil => intro i j; simp [buildClonesAux]
  | cons s rest ih =>
    intro i j
    cases j with
    | zero => simp [buildClonesAux]
    | succ j =>
      have h : i + 1 + j = i + (j + 1) := by omega
      simp only [buildClonesAux, List.getElem?_cons_succ, ih (i + 1) j, h]

theorem add_follow_ups_input_sequences_length
    (sequences : List SmartleadCampaignSequence) (d : Int) :
    (add_follow_ups_input_sequences sequences d).length = 2 * sequences.length := by
  simp [add_follow_ups_input_sequences, buildClonesAux_length]
  omega

/-- C1: when the expected-length guard does not trigger, the sequence duplicator
submits the K original sequences (ids and delays unchanged, re-expressed as
input objects) followed by K clones in original order numbered K+1..2K, where
the first clone receives the supplied delay period, every later clone keeps its
source's original delay, and all clone sequence ids and clone variant ids are
unset. -/
theorem C1_sequence_duplicator_output (sequences : List SmartleadCampaignSequence)
    (delay_period : Int) (expected_sequence_length : Option Nat)
    (hK : 1 ≤ sequences.length)
    (hguard : ∀ e, expected_sequence_length = some e → sequences.length < e) :
    ∃ out,
      add_follow_ups_submission sequences delay_period expected_sequence_length = some out ∧
      out.length = 2 * sequences.length ∧
      (∀ (i : Nat) (s : SmartleadCampaignSequence), sequences[i]? = some s →
        out[i]? = some (buildOriginalInput s) ∧
        (buildOriginalInput s).id = some s.id ∧
        (buildOriginalInput s).seq_delay_details =
          some { delay_in_days := s.seq_delay_details.delayInDays }) ∧
      (∀ (i : Nat) (s : SmartleadCampaignSequence), sequences[i]? = some s →
        ∃ c, out[sequences.length + i]? = some c ∧
          c.id = none ∧
          c.seq_number = (sequences.length : Int) + (i : Int) + 1 ∧
          c.subject = some s.subject ∧
          c.email_body = some s.email_body ∧
          c.seq_delay_details =
            some { delay_in_days :=
                     if i = 0 then delay_period else s.seq_delay_details.delayInDays } ∧
          (∀ vs v, c.seq_variants = some vs → v ∈ vs → v.id = none)) := by
  have hsub : add_follow_ups_submission sequences delay_period expected_sequence_length =
      some (add_follow_ups_input_sequences sequences delay_period) := by
    cases expected_sequence_length with
    | none => rfl
    | some e =>
      have he := hguard e rfl
      simp [add_follow_ups_submission]
      omega
  refine ⟨add_follow_ups_input_sequences sequences delay_period, hsub,
    add_follow_ups_input_sequences_length sequences delay_period, ?_, ?_⟩
  · intro i s hs
    have hi : i < sequences.length := (List.getElem?_eq_some.mp hs).1
    refine ⟨?_, rfl, rfl⟩
    have hi2 : i < (sequences.map buildOriginalInput).length := by
      simpa using hi
    rw [add_follow_ups_input_sequences, List.getElem?_append_left hi2,
      List.getElem?_map, hs]
    rfl
  · intro i s hs
    have hlen : (sequences.map buildOriginalInput).length ≤ sequences.length + i := by
      simp
    have hidx : (add_follow_ups_input_sequences sequences delay_period)[sequences.length + i]? =
        some (buildCloneInput sequences.length delay_period i s) := by
      rw [add_follow_ups_input_sequences, List.getElem?_append_right hlen]
      have hsub2 : sequences.length + i - (sequences.map buildOriginalInput).length = i := by
        simp
      rw [hsub2, buildClonesAux_getElem?]
      simp [hs]
    refine ⟨buildCloneInput sequences.length delay_period i s, hidx, rfl, rfl, rfl, rfl, rfl, ?_⟩
    intro vs v hvs hv
    unfold buildCloneInput cloneVariantInputs at hvs
    cases hvars : s.sequence_variants with
    | none => rw [hvars] at hvs; simp at hvs
    | some l =>
      rw [hvars] at hvs
      simp only at hvs
      by_cases hemp : l.isEmpty
      · rw [if_pos hemp] at hvs; simp at hvs
      · rw [if_neg hemp] at hvs
        have hvs2 : vs = l.map (fun v =>
            ({ subject := v.subject, id := none, email_body := v.email_body,
               variant_label := v.variant_label,
               variant_distribution_percentage := v.variant_distribution_percentage } :
             SequenceVariantInput)) := by
          exact (Option.some_inj.mp hvs).symm
        subst hvs2
        obtain ⟨w, hw, hweq⟩ := List.mem_map.mp hv
        rw [← hweq]

/-- C1 witness: a concrete one-sequence campaign with the guard absent. -/
theorem C1_sequence_duplicator_output_witness :
    ∃ out,
      add_follow_ups_submission [⟨7, "", "", 3, 1, "sub", "body", ⟨2⟩, none⟩] 5 none = some out ∧
      out.length = 2 * ([⟨7, "", "", 3, 1, "sub", "body", ⟨2⟩, none⟩] :
        List SmartleadCampaignSequence).length ∧
      (∀ (i : Nat) (s : SmartleadCampaignSequence), ([⟨7, "", "", 3, 1, "sub", "body", ⟨2⟩, none⟩] :
          List SmartleadCampaignSequence)[i]? = some s →
        out[i]? = some (buildOriginalInput s) ∧
        (buildOriginalInput s).id = some s.id ∧
        (buildOriginalInput s).seq_delay_details =
          some { delay_in_days := s.seq_delay_details.delayInDays }) ∧
      (∀ (i : Nat) (s : SmartleadCampaignSequence), ([⟨7, "", "", 3, 1, "sub", "body", ⟨2⟩, none⟩] :
          List SmartleadCampaignSequence)[i]? = some s →
        ∃ c, out[([⟨7, "", "", 3, 1, "sub", "body", ⟨2⟩, none⟩] :
            List SmartleadCampaignSequence).length + i]? = some c ∧
          c.id = none ∧
          c.seq_number = (([⟨7, "", "", 3, 1, "sub", "body", ⟨2⟩, none⟩] :
            List SmartleadCampaignSequence).length : Int) + (i : Int) + 1 ∧
          c.subject = some s.subject ∧
          c.email_body = some s.email_body ∧
          c.seq_delay_details =
            some { delay_in_days := if i = 0 then 5 else s.seq_delay_details.delayInDays } ∧
          (∀ vs v, c.seq_variants = some vs → v ∈ vs → v.id = none)) :=
  C1_sequence_duplicator_output [⟨7, "", "", 3, 1, "sub", "body", ⟨2⟩, none⟩] 5 none
    (by decide) (fun e h => nomatch h)

/-- C8: a non-None expected_sequence_length that is at most the current sequence
count makes the duplicator a no-op, and in particular a second call whose
fetched count equals the first call's submitted count with that count as the
expected length is a no-op. -/
theorem C8_duplicator_guard_idempotent
    (sequences second_fetch : List SmartleadCampaignSequence)
    (d₁ d₂ : Int) (e : Nat) (out : List SmartleadCampaignSequenceInput)
    (hguard : e ≤ sequences.length)
    (hfirst : add_follow_ups_submission sequences d₁ none = some out)
    (hsecond : second_fetch.length = out.length) :
    add_follow_ups_submission sequences d₁ (some e) = none ∧
    add_follow_ups_submission second_fetch d₂ (some out.length) = none := by
  constructor
  · simp [add_follow_ups_submission, hguard]
  · have h2 : out.length ≤ second_fetch.length := le_of_eq hsecond.symm
    simp [add_follow_ups_submission, h2]

/-- C8 witness: one concrete sequence, guard 1 ≤ 1; the second fetch has the
post-first-call count 2 and expected length 2. -/
theorem C8_duplicator_guard_idempotent_witness :
    add_follow_ups_submission [⟨7, "", "", 3, 1, "s", "b", ⟨2⟩, none⟩] 4 (some 1) = none ∧
    add_follow_ups_submission
      [⟨7, "", "", 3, 1, "s", "b", ⟨2⟩, none⟩, ⟨8, "", "", 3, 2, "s", "b", ⟨4⟩, none⟩] 9
      (some ([buildOriginalInput ⟨7, "", "", 3, 1, "s", "b", ⟨2⟩, none⟩,
              buildCloneInput 1 4 0 ⟨7, "", "", 3, 1, "s", "b", ⟨2⟩, none⟩].length)) = none :=
  C8_duplicator_guard_idempotent
    [⟨7, "", "", 3, 1, "s", "b", ⟨2⟩, none⟩]
    [⟨7, "", "", 3, 1, "s", "b", ⟨2⟩, none⟩, ⟨8, "", "", 3, 2, "s", "b", ⟨4⟩, none⟩]
    4 9 1
    [buildOriginalInput ⟨7, "", "", 3, 1, "s", "b", ⟨2⟩, none⟩,
     buildCloneInput 1 4 0 ⟨7, "", "", 3, 1, "s", "b", ⟨2⟩, none⟩]
    (by decide) rfl rfl

/-- C10: the follow-up workflow runner calls the duplicator with
expected_sequence_length omitted, so the guard never fires and every run that
fetches K sequences submits exactly 2K sequence inputs. -/
theorem C10_runner_always_appends (delay_period : Int)
    (sequences : List SmartleadCampaignSequence) :
    ∃ out, runner_add_follow_ups delay_period sequences = some out ∧
      out.length = 2 * sequences.length :=
  ⟨add_follow_ups_input_sequences sequences delay_period, rfl,
    add_follow_ups_input_sequences_length sequences delay_period⟩

/-- One page served by the leads endpoint for a campaign whose full
server-side lead list is `allLeads`: the slice of `pageSize` leads starting at
`offset`, as consumed from `SmartleadGetCampaignLeadsResponse.data` by
`get_leads_by_campaign_id_with_pagination` (src/clients/smartlead/index.py). -/
def leadsPageData {α : Type} (allLeads : List α) (pageSize offset : Nat) : List α :=
  (allLeads.drop offset).take pageSize

/-- The `while len(leads) < total_leads` loop of
`get_leads_by_campaign_id_with_pagination` (src/clients/smartlead/index.py lines
97-117).  `ok t` tells whether the page request with counter `t` succeeds; a
failing request is logged and the loop continues at the same offset, a
successful one extends `leads` with the page at offset `len(leads)`.  `fuel`
bounds the number of loop iterations; `none` means the fuel ran out, i.e. the
unbounded Python loop has not terminated within `fuel` iterations. -/
def fetchLeadsLoop {α : Type} (allLeads : List α) (pageSize : Nat) (ok : Nat → Bool)
    (total : Nat) : Nat → Nat → List α → Option (List α)
  | 0, _, _ => none
  | fuel + 1, t, leads =>
    if leads.length < total then
      if ok t then
        fetchLeadsLoop allLeads pageSize ok total fuel (t + 1)
          (leads ++ leadsPageData allLeads pageSize leads.length)
      else fetchLeadsLoop allLeads pageSize ok total fuel (t + 1) leads
    else some leads

/-- Embedding of `get_leads_by_campaign_id_with_pagination`
(src/clients/smartlead/index.py lines 69-119).  The server is modelled by its
full lead list `allLeads` served in pages of `pageSize`, reporting
`total_leads = allLeads.length`; `ok` gives each request's success.  Request 0
is the initial request: on its failure the function logs and returns the
accumulated (empty) list — no exception escapes, so a terminating outcome is
always `Except.ok`; `none` models the loop never terminating within `fuel`
iterations. -/
def get_leads_by_campaign_id_with_pagination {α : Type} (allLeads : List α)
    (pageSize : Nat) (ok : Nat → Bool) (fuel : Nat) :
    Option (Except String (List α)) :=
  if ok 0 then
    (fetchLeadsLoop allLeads pageSize ok allLeads.length fuel 1
      (leadsPageData allLeads pageSize 0)).map Except.ok
  else some (Except.ok [])

theorem fetchLeadsLoop_exit {α : Type} (allLeads : List α) (pageSize : Nat)
    (ok : Nat → Bool) (total fuel t : Nat) (leads : List α)
    (h : total ≤ leads.length) :
    fetchLeadsLoop allLeads pageSize ok total (fuel + 1) t leads = some leads := by
  simp [fetchLeadsLoop, Nat.not_lt.mpr h]

theorem fetchLeadsLoop_skip {α : Type} (allLeads : List α) (pageSize : Nat)
    (ok : Nat → Bool) (total : Nat) :
    ∀ (k fuel t : Nat) (leads : List α),
      (∀ u, t ≤ u → u < t + k → ok u = false) →
      leads.length < total →
      fetchLeadsLoop allLeads pageSize ok total (k + fuel) t leads =
        fetchLeadsLoop allLeads pageSize ok total fuel (t + k) leads := by
  intro k
  induction k with
  | zero => intro fuel t leads _ _; simp
  | succ k ih =>
    intro fuel t leads hfail hlt
    have hoktf : ok t = false := hfail t (Nat.le_refl t) (by omega)
    have hstep : k + 1 + fuel = (k + fuel) + 1 := by omega
    rw [hstep]
    show (if leads.length < total then
        if ok t then fetchLeadsLoop allLeads pageSize ok total (k + fuel) (t + 1)
          (leads ++ leadsPageData allLeads pageSize leads.length)
        else fetchLeadsLoop allLeads pageSize ok total (k + fuel) (t + 1) leads
      else some leads) = _
    rw [if_pos hlt, hoktf, if_neg (by simp)]
    have := ih fuel (t + 1) leads (fun u hu1 hu2 => hfail u (by omega) (by omega)) hlt
    rw [this]
    have harith : t + 1 + k = t + (k + 1) := by omega
    rw [harith]

theorem fetchLeadsLoop_complete {α : Type} (allLeads : List α) (pageSize : Nat)
    (ok : Nat → Bool) (hP : 1 ≤ pageSize)
    (hok : ∀ t, ∃ u, t ≤ u ∧ ok u = true) :
    ∀ (d m t : Nat), allLeads.length - m ≤ d →
      ∃ fuel, fetchLeadsLoop allLeads pageSize ok allLeads.length fuel t
        (allLeads.take m) = some allLeads := by
  intro d
  induction d with
  | zero =>
    intro m t hd
    have hm : allLeads.length ≤ m := by omega
    refine ⟨1, ?_⟩
    rw [List.take_of_length_le hm]
    exact fetchLeadsLoop_exit allLeads pageSize ok allLeads.length 0 t allLeads
      (Nat.le_refl _)
  | succ d ih =>
    intro m t hd
    by_cases hm : allLeads.length ≤ m
    · refine ⟨1, ?_⟩
      rw [List.take_of_length_le hm]
      exact fetchLeadsLoop_exit allLeads pageSize ok allLeads.length 0 t allLeads
        (Nat.le_refl _)
    · have hmlt : m < allLeads.length := by omega
      have hlen : (allLeads.take m).length = m := by
        simp [List.length_take]
        omega
      have hdec : DecidablePred (fun u => t ≤ u ∧ ok u = true) := by
        intro u; infer_instance
      obtain ⟨u₀, hu₀le, hu₀ok, hu₀min⟩ :
          ∃ u₀, t ≤ u₀ ∧ ok u₀ = true ∧ ∀ v, t ≤ v → v < u₀ → ok v = false := by
        have hfind := Nat.find_spec (hok t)
        refine ⟨Nat.find (hok t), hfind.1, hfind.2, ?_⟩
        intro v hv1 hv2
        have := Nat.find_min (hok t) hv2
        by_contra hcon
        exact this ⟨hv1, by simpa using hcon⟩
      obtain ⟨fuel, hfuel⟩ := ih (m + pageSize) (u₀ + 1)
        (by omega)
      refine ⟨(u₀ - t) + (fuel + 1), ?_⟩
      rw [fetchLeadsLoop_skip allLeads pageSize ok allLeads.length (u₀ - t) (fuel + 1) t
        (allLeads.take m)
        (fun u hu1 hu2 => hu₀min u hu1 (by omega))
        (by omega)]
      have ht : t + (u₀ - t) = u₀ := by omega
      rw [ht]
      show (if (allLeads.take m).length < allLeads.length then
          if ok u₀ then fetchLeadsLoop allLeads pageSize ok allLeads.length fuel (u₀ + 1)
            ((allLeads.take m) ++ leadsPageData allLeads pageSize (allLeads.take m).length)
          else fetchLeadsLoop allLeads pageSize ok allLeads.length fuel (u₀ + 1)
            (allLeads.take m)
        else some (allLeads.take m)) = some allLeads
      rw [if_pos (by omega), hu₀ok, if_pos rfl, hlen]
      have htake : allLeads.take m ++ leadsPageData allLeads pageSize m =
          allLeads.take (m + pageSize) := by
        rw [leadsPageData, ← List.take_add]
      rw [htake]
      exact hfuel

/-- C3: assuming the initial request succeeds and every retried page request
eventually succeeds, the pagination loop terminates (for some fuel bound) and
returns exactly the server's full lead list — all `total_leads` of them, with
no duplicates and no omissions — by requesting each next page at an offset
equal to the number of leads already collected. -/
theorem C3_pagination_exact {α : Type} (allLeads : List α) (pageSize : Nat)
    (ok : Nat → Bool) (hP : 1 ≤ pageSize) (hok0 : ok 0 = true)
    (hok : ∀ t, ∃ u, t ≤ u ∧ ok u = true) :
    ∃ fuel, get_leads_by_campaign_id_with_pagination allLeads pageSize ok fuel =
      some (Except.ok allLeads) := by
  have hfirst : leadsPageData allLeads pageSize 0 = allLeads.take pageSize := by
    simp [leadsPageData]
  obtain ⟨fuel, hfuel⟩ := fetchLeadsLoop_complete allLeads pageSize ok hP hok
    (allLeads.length) pageSize 1 (by omega)
  refine ⟨fuel, ?_⟩
  rw [get_leads_by_campaign_id_with_pagination, if_pos (by simp [hok0]), hfirst, hfuel]
  rfl

/-- C3 witness: a three-lead campaign served two per page with every request
succeeding. -/
theorem C3_pagination_exact_witness :
    ∃ fuel, get_leads_by_campaign_id_with_pagination [10, 20, 30] 2
      (fun _ => true) fuel = some (Except.ok [10, 20, 30]) :=
  C3_pagination_exact [10, 20, 30] 2 (fun _ => true) (by decide) rfl
    (fun t => ⟨t, Nat.le_refl t, rfl⟩)

/-- C9: when the initial page request fails, the function does not propagate
the failure: it logs and returns the partial — here empty — lead list, for
every fuel bound. -/
theorem C9_first_page_failure_partial {α : Type} (allLeads : List α)
    (pageSize : Nat) (ok : Nat → Bool) (fuel : Nat) (h : ok 0 = false) :
    get_leads_by_campaign_id_with_pagination allLeads pageSize ok fuel =
      some (Except.ok []) := by
  rw [get_leads_by_campaign_id_with_pagination, if_neg (by simp [h])]

/-- C9 witness: a concrete campaign whose every request fails. -/
theorem C9_first_page_failure_partial_witness :
    get_leads_by_campaign_id_with_pagination [10, 20, 30] 2 (fun _ => false) 5 =
      some (Except.ok []) :=
  C9_first_page_failure_partial [10, 20, 30] 2 (fun _ => false) 5 rfl

/-- Python `str.strip()` on a string: leading and trailing whitespace removed.
Written over the character list so that it evaluates in the kernel. -/
def pyStrip (s : String) : String :=
  ⟨((s.data.dropWhile Char.isWhitespace).reverse.dropWhile Char.isWhitespace).reverse⟩

/-- Python `str.lower()` on a string: every character lowercased. -/
def pyLower (s : String) : String :=
  ⟨s.data.map Char.toLower⟩

/-- Python `str.replace(pat, rep)` for the single-character pattern and
replacement used at the call sites (";" replaced by a newline). -/
def pyReplaceChar (s : String) (pat rep : Char) : String :=
  ⟨s.data.map (fun c => if c = pat then rep else c)⟩

/-- A chat-completion request issued through `get_gpt_answer`
(src/common/utils.py): the system message and the user question. -/
structure GptCall where
  system : String
  prompt : String
deriving DecidableEq

/-- Embedding of `get_gpt_answer` (src/common/utils.py lines 7-17): the model is
an oracle from the system and user messages to the raw completion text, and the
returned answer is that text stripped and lowercased.  The temperature argument
only parameterises the external model call and is absorbed into the oracle. -/
def get_gpt_answer (model : String → String → String)
    (system_prompt user_prompt : String) : String :=
  pyLower (pyStrip (model system_prompt user_prompt))

/-- System message of `is_outside_whitelisted_area`
(src/pages/va/filter_leads_from_campaign.py lines 50-53). -/
def areaSystemPrompt (whitelisted_areas : String) : String :=
  "You are a helpful assistant that filters addresses based on whitelisted areas. The whitelisted areas are:\n"
    ++ pyReplaceChar whitelisted_areas (';') ('\n')

/-- User question of `is_outside_whitelisted_area`
(src/pages/va/filter_leads_from_campaign.py lines 54-57). -/
def areaUserPrompt (location : String) : String :=
  "Is the address " ++ location ++
    " located within any of the whitelisted areas? You answer should strictly be \x27yes\x27 or \x27no\x27"

/-- System message of `is_in_blocklisted_industry`
(src/pages/va/filter_leads_from_campaign.py lines 67-69). -/
def blockSystemPrompt (blocklisted_industries : String) : String :=
  "You are a helpful assistant that filters industries based on blocklisted industries:\n"
    ++ pyReplaceChar blocklisted_industries (';') ('\n')

/-- User question of `is_in_blocklisted_industry`
(src/pages/va/filter_leads_from_campaign.py lines 71-74). -/
def blockUserPrompt (industry : String) : String :=
  "Does the industry " ++ industry ++
    " match any of the blocklisted industries? Answer strictly \x27yes\x27 or \x27no\x27"

/-- System message of `is_outside_whitelisted_industry`
(src/pages/va/filter_leads_from_campaign.py lines 84-87). -/
def whiteSystemPrompt (whitelisted_industries : String) : String :=
  "You are a helpful assistant that filters industries based on whitelisted industries:\n"
    ++ pyReplaceChar whitelisted_industries (';') ('\n')

/-- User question of `is_outside_whitelisted_industry`
(src/pages/va/filter_leads_from_campaign.py lines 88-91). -/
def whiteUserPrompt (industry : String) : String :=
  "Does the industry " ++ industry ++
    " stay within any of the whitelisted industries? Answer strictly \x27yes\x27 or \x27no\x27"

/-- Embedding of `is_outside_whitelisted_area`
(src/pages/va/filter_leads_from_campaign.py lines 47-59).  Besides the boolean
result it records the model calls issued, so that short-circuiting is
observable.  Empty location or whitelist returns false without any model call;
otherwise the answer is stripped, lowercased and compared to "no". -/
def is_outside_whitelisted_area (model : String → String → String)
    (location whitelisted_areas : String) : Bool × List GptCall :=
  if location = "" ∨ whitelisted_areas = "" then (false, [])
  else
    let ans := get_gpt_answer model (areaSystemPrompt whitelisted_areas)
      (areaUserPrompt location)
    (pyLower (pyStrip ans) == "no",
      [{ system := areaSystemPrompt whitelisted_areas, prompt := areaUserPrompt location }])

/-- Embedding of `is_in_blocklisted_industry`
(src/pages/va/filter_leads_from_campaign.py lines 62-76): empty industry or
blocklist returns false without any model call; otherwise the answer is
stripped, lowercased and compared to "yes". -/
def is_in_blocklisted_industry (model : String → String → String)
    (industry blocklisted_industries : String) : Bool × List GptCall :=
  if industry = "" ∨ blocklisted_industries = "" then (false, [])
  else
    let ans := get_gpt_answer model (blockSystemPrompt blocklisted_industries)
      (blockUserPrompt industry)
    (pyLower (pyStrip ans) == "yes",
      [{ system := blockSystemPrompt blocklisted_industries, prompt := blockUserPrompt industry }])

/-- Embedding of `is_outside_whitelisted_industry`
(src/pages/va/filter_leads_from_campaign.py lines 79-93): empty industry or
whitelist returns false without any model call; otherwise the answer is
stripped, lowercased and compared to "no". -/
def is_outside_whitelisted_industry (model : String → String → String)
    (industry whitelisted_industries : String) : Bool × List GptCall :=
  if industry = "" ∨ whitelisted_industries = "" then (false, [])
  else
    let ans := get_gpt_answer model (whiteSystemPrompt whitelisted_industries)
      (whiteUserPrompt industry)
    (pyLower (pyStrip ans) == "no",
      [{ system := whiteSystemPrompt whitelisted_industries, prompt := whiteUserPrompt industry }])

/-- One uploaded lead row as consumed by `check_one`
(src/pages/va/filter_leads_from_campaign.py lines 114-123): the Location and
informalIndustry columns, with a missing value embedded as the empty string. -/
structure UploadedLead where
  location : String
  informalIndustry : String
deriving DecidableEq

/-- Embedding of `check_one` (src/pages/va/filter_leads_from_campaign.py lines
114-123): the three predicates are evaluated in order with short-circuiting,
`some lead` marks the lead for removal, and the second component is the
concatenated trace of model calls actually issued. -/
def check_one (model : String → String → String) (lead : UploadedLead)
    (blocklisted_industries whitelisted_industries whitelisted_areas : String) :
    Option UploadedLead × List GptCall :=
  let r1 := is_outside_whitelisted_area model lead.location whitelisted_areas
  if r1.1 then (some lead, r1.2)
  else
    let r2 := is_in_blocklisted_industry model lead.informalIndustry blocklisted_industries
    if r2.1 then (some lead, r1.2 ++ r2.2)
    else
      let r3 := is_outside_whitelisted_industry model lead.informalIndustry
        whitelisted_industries
      if r3.1 then (some lead, r1.2 ++ r2.2 ++ r3.2)
      else (none, r1.2 ++ r2.2 ++ r3.2)

/-- C4: `check_one` evaluates the predicates in the fixed order location,
blocklisted industry, whitelisted industry; it marks the lead for removal iff
some predicate is true; its model-call trace stops at the first true predicate,
so a true location check means the two industry predicates are never
evaluated. -/
theorem C4_classifier_short_circuit (model : String → String → String)
    (lead : UploadedLead)
    (blocklisted_industries whitelisted_industries whitelisted_areas : String) :
    ((check_one model lead blocklisted_industries whitelisted_industries
        whitelisted_areas).1 = some lead ↔
      ((is_outside_whitelisted_area model lead.location whitelisted_areas).1 = true ∨
       (is_in_blocklisted_industry model lead.informalIndustry
          blocklisted_industries).1 = true ∨
       (is_outside_whitelisted_industry model lead.informalIndustry
          whitelisted_industries).1 = true)) ∧
    ((is_outside_whitelisted_area model lead.location whitelisted_areas).1 = true →
      (check_one model lead blocklisted_industries whitelisted_industries
        whitelisted_areas).2 =
      (is_outside_whitelisted_area model lead.location whitelisted_areas).2) ∧
    ((is_outside_whitelisted_area model lead.location whitelisted_areas).1 = false →
      (is_in_blocklisted_industry model lead.informalIndustry
        blocklisted_industries).1 = true →
      (check_one model lead blocklisted_industries whitelisted_industries
        whitelisted_areas).2 =
      (is_outside_whitelisted_area model lead.location whitelisted_areas).2 ++
      (is_in_blocklisted_industry model lead.informalIndustry blocklisted_industries).2) ∧
    ((is_outside_whitelisted_area model lead.location whitelisted_areas).1 = false →
      (is_in_blocklisted_industry model lead.informalIndustry
        blocklisted_industries).1 = false →
      (check_one model lead blocklisted_industries whitelisted_industries
        whitelisted_areas).2 =
      (is_outside_whitelisted_area model lead.location whitelisted_areas).2 ++
      (is_in_blocklisted_industry model lead.informalIndustry blocklisted_industries).2 ++
      (is_outside_whitelisted_industry model lead.informalIndustry
        whitelisted_industries).2) := by
  cases h1 : (is_outside_whitelisted_area model lead.location whitelisted_areas).1 <;>
  cases h2 : (is_in_blocklisted_industry model lead.informalIndustry
    blocklisted_industries).1 <;>
  cases h3 : (is_outside_whitelisted_industry model lead.informalIndustry
    whitelisted_industries).1 <;>
  simp [check_one, h1, h2, h3]

/-- C4 witness: a model that always answers no makes the location check true,
and the trace is exactly the location predicate's single call. -/
theorem C4_classifier_short_circuit_witness :
    (check_one (fun _ _ => "no") ⟨"Paris", "Software"⟩ "b" "w" "a").2 =
      (is_outside_whitelisted_area (fun _ _ => "no") "Paris" "a").2 :=
  (C4_classifier_short_circuit (fun _ _ => "no") ⟨"Paris", "Software"⟩ "b" "w" "a").2.1
    (by decide)

/-- C5: each classifier predicate returns false when either string argument is
empty; otherwise its result is an exact comparison of the stripped, lowercased
model answer against its literal: "no" for the area predicate, "yes" for the
blocklist predicate, "no" for the industry-whitelist predicate, any other text
giving false. -/
theorem C5_predicate_parsing (model : String → String → String)
    (location whitelisted_areas industry blocklisted_industries
      whitelisted_industries : String) :
    ((location = "" ∨ whitelisted_areas = "") →
      (is_outside_whitelisted_area model location whitelisted_areas).1 = false) ∧
    (location ≠ "" → whitelisted_areas ≠ "" →
      ((is_outside_whitelisted_area model location whitelisted_areas).1 = true ↔
        pyLower (pyStrip (get_gpt_answer model (areaSystemPrompt whitelisted_areas)
          (areaUserPrompt location))) = "no")) ∧
    ((industry = "" ∨ blocklisted_industries = "") →
      (is_in_blocklisted_industry model industry blocklisted_industries).1 = false) ∧
    (industry ≠ "" → blocklisted_industries ≠ "" →
      ((is_in_blocklisted_industry model industry blocklisted_industries).1 = true ↔
        pyLower (pyStrip (get_gpt_answer model
          (blockSystemPrompt blocklisted_industries) (blockUserPrompt industry))) = "yes")) ∧
    ((industry = "" ∨ whitelisted_industries = "") →
      (is_outside_whitelisted_industry model industry whitelisted_industries).1 = false) ∧
    (industry ≠ "" → whitelisted_industries ≠ "" →
      ((is_outside_whitelisted_industry model industry whitelisted_industries).1 = true ↔
        pyLower (pyStrip (get_gpt_answer model
          (whiteSystemPrompt whitelisted_industries) (whiteUserPrompt industry))) = "no")) := by
  refine ⟨?_, ?_, ?_, ?_, ?_, ?_⟩
  · intro h; simp [is_outside_whitelisted_area, h]
  · intro h1 h2
    rw [is_outside_whitelisted_area, if_neg (by tauto)]
    simp
  · intro h; simp [is_in_blocklisted_industry, h]
  · intro h1 h2
    rw [is_in_blocklisted_industry, if_neg (by tauto)]
    simp
  · intro h; simp [is_outside_whitelisted_industry, h]
  · intro h1 h2
    rw [is_outside_whitelisted_industry, if_neg (by tauto)]
    simp

/-- C5 witness: with nonempty arguments and an uppercase padded answer the area
predicate is true, exercising the strip-lowercase-compare rule. -/
theorem C5_predicate_parsing_witness :
    (is_outside_whitelisted_area (fun _ _ => " NO") "Berlin" "Germany").1 = true :=
  ((C5_predicate_parsing (fun _ _ => " NO") "Berlin" "Germany" "Retail" "Retail"
      "Tech").2.1 (by decide) (by decide)).mpr (by decide)

/-- The percentage-gate step of the follow-up workflow runner
(src/pages/va/add_follow_ups.py lines 176-189): when the checkbox is set, the
statistics' `campaign_lead_stats.total` and `unique_sent_count` are read,
`sent_ratio` is 0 for zero total leads and the exact quotient otherwise, and
`update_smartlead_campaign_follow_up_percentage(campaign_id, 90)` is invoked
iff `total_leads == 0 or sent_ratio >= 0.70`; `some (cid, p)` records that the
update was invoked with those arguments. -/
def runner_percentage_update (change_follow_up_percentage : Bool)
    (campaign_id : Int) (total_leads unique_sent_count : Nat) : Option (Int × Int) :=
  if change_follow_up_percentage then
    let sent_ratio : ℚ :=
      if total_leads = 0 then 0 else (unique_sent_count : ℚ) / (total_leads : ℚ)
    if total_leads = 0 ∨ sent_ratio ≥ 70 / 100 then some (campaign_id, 90)
    else none
  else none

/-- C6: with the checkbox enabled, the percentage update to 90 is invoked for
total_leads = 0 whatever the sent count, is invoked for total_leads = 100 with
unique_sent_count = 70 (ratio exactly the 0.70 threshold), and is not invoked
for unique_sent_count = 69. -/
theorem C6_percentage_gate (campaign_id : Int) (unique_sent_count : Nat) :
    runner_percentage_update true campaign_id 0 unique_sent_count =
      some (campaign_id, 90) ∧
    runner_percentage_update true campaign_id 100 70 = some (campaign_id, 90) ∧
    runner_percentage_update true campaign_id 100 69 = none := by
  refine ⟨?_, ?_, ?_⟩
  · simp [runner_percentage_update]
  · rw [runner_percentage_update, if_pos rfl, if_pos]
    right
    norm_num
  · rw [runner_percentage_update, if_pos rfl, if_neg]
    push_neg
    constructor
    · norm_num
    · rw [if_neg (by norm_num)]
      norm_num

/-- The body of the POST request to
`email-campaigns/delete-email-campaign-multiple-leads` built by
`remove_multiple_leads_from_campaign` (src/clients/smartlead/internal/index.py). -/
structure DeleteLeadsRequest where
  campaignId : String
  emailLeadIds : List Int
  emailLeadMapIds : List Int
deriving DecidableEq

/-- Embedding of `remove_multiple_leads_from_campaign`
(src/clients/smartlead/internal/index.py lines 6-22): lists of unequal length
raise a ValueError before any network request; otherwise the deletion request
with the given body is issued (`Except.ok` carries the request that is sent). -/
def remove_multiple_leads_from_campaign (smartlead_campaign_id : String)
    (email_lead_ids email_lead_map_ids : List Int) :
    Except String DeleteLeadsRequest :=
  if email_lead_ids.length ≠ email_lead_map_ids.length then
    Except.error ("emailLeadIds and emailLeadMapIds must have the same length")
  else
    Except.ok
      { campaignId := smartlead_campaign_id,
        emailLeadIds := email_lead_ids,
        emailLeadMapIds := email_lead_map_ids }

/-- C7: unequal-length id lists make the deletion helper fail immediately with
a ValueError and no network call, while equal-length lists proceed to the
deletion request carrying exactly the given ids. -/
theorem C7_deletion_precondition (smartlead_campaign_id : String)
    (email_lead_ids email_lead_map_ids : List Int) :
    (email_lead_ids.length ≠ email_lead_map_ids.length →
      remove_multiple_leads_from_campaign smartlead_campaign_id email_lead_ids
        email_lead_map_ids =
      Except.error ("emailLeadIds and emailLeadMapIds must have the same length")) ∧
    (email_lead_ids.length = email_lead_map_ids.length →
      remove_multiple_leads_from_campaign smartlead_campaign_id email_lead_ids
        email_lead_map_ids =
      Except.ok
        { campaignId := smartlead_campaign_id,
          emailLeadIds := email_lead_ids,
          emailLeadMapIds := email_lead_map_ids }) := by
  constructor
  · intro h; simp [remove_multiple_leads_from_campaign, h]
  · intro h; simp [remove_multiple_leads_from_campaign, h]

/-- C7 witness: a one-element lead-id list against an empty lead-map-id list
fails, and matching singleton lists proceed. -/
theorem C7_deletion_precondition_witness :
    remove_multiple_leads_from_campaign "77" [5] [] =
      Except.error ("emailLeadIds and emailLeadMapIds must have the same length") ∧
    remove_multiple_leads_from_campaign "77" [5] [9] =
      Except.ok { campaignId := "77", emailLeadIds := [5], emailLeadMapIds := [9] } :=
  ⟨(C7_deletion_precondition "77" [5] []).1 (by decide),
   (C7_deletion_precondition "77" [5] [9]).2 (by decide)⟩

/-- Keyword parameters accepted by `query_smartlead_internal_graphql_endpoint`
(src/clients/smartlead/internal/index.py lines 104-111): all parameters are
keyword-only. -/
def querySmartleadInternalGraphqlParams : List String :=
  ["method", "headers", "body", "query_params", "timeout"]

/-- Keyword parameters of `query_smartlead_internal_graphql_endpoint` without a
default value, hence required at every call. -/
def querySmartleadInternalGraphqlRequired : List String :=
  ["method"]

/-- Keyword arguments passed to `query_smartlead_internal_graphql_endpoint` by
`update_smartlead_campaign_follow_up_percentage`
(src/clients/smartlead/internal/index.py lines 47-51). -/
def updateFollowUpPercentageCallKwargs : List String :=
  ["query", "variables", "operation_name"]

/-- Python keyword-argument binding for a call with keyword arguments only: an
argument whose name is not a parameter raises a TypeError, as does a missing
required parameter; otherwise the call proceeds. -/
def bindKeywordArgs (params required passed : List String) : Except String Unit :=
  match passed.find? (fun k => !(params.contains k)) with
  | some k => Except.error ("TypeError: unexpected keyword argument " ++ k)
  | none =>
    match required.find? (fun k => !(passed.contains k)) with
    | some k => Except.error ("TypeError: missing required argument " ++ k)
    | none => Except.ok ()

/-- Embedding of `update_smartlead_campaign_follow_up_percentage`
(src/clients/smartlead/internal/index.py lines 25-51).  The body consists of
building the mutation and calling `query_smartlead_internal_graphql_endpoint`
with the keyword arguments `query`, `variables` and `operation_name`; the
result models that call's keyword binding, and since the function has no return
statement the non-raising branch yields Python's implicit `None`
(`Except.ok none`) rather than the updated campaign id. -/
def update_smartlead_campaign_follow_up_percentage
    (campaign_id follow_up_percentage : Int) : Except String (Option Int) :=
  match bindKeywordArgs querySmartleadInternalGraphqlParams
      querySmartleadInternalGraphqlRequired updateFollowUpPercentageCallKwargs with
  | Except.error e => Except.error e
  | Except.ok _ => Except.ok none

/-- C2: contrary to the claim (and to the function's own docstring and return
annotation), every call to `update_smartlead_campaign_follow_up_percentage`
raises a TypeError before any GraphQL request is issued — the helper's
signature accepts none of the keyword arguments `query`, `variables`,
`operation_name` — so no mutation is sent and no updated id is ever
returned. -/
theorem C2_update_follow_up_percentage_raises
    (campaign_id follow_up_percentage : Int) :
    update_smartlead_campaign_follow_up_percentage campaign_id follow_up_percentage =
      Except.error ("TypeError: unexpected keyword argument query") ∧
    ∀ r : Option Int,
      update_smartlead_campaign_follow_up_percentage campaign_id follow_up_percentage ≠
        Except.ok r := by
  refine ⟨rfl, ?_⟩
  intro r h
  exact absurd h (by simp [update_smartlead_campaign_follow_up_percentage,
    bindKeywordArgs, querySmartleadInternalGraphqlParams,
    updateFollowUpPercentageCallKwargs, List.find?])
